import Mathlib

/-!
# Verification of the ConferenceTimer timing engine

A shallow embedding of `react/features/conference/components/ConferenceTimer.js`.

The component owns two repeating-interval handles (`_interval` for the
elapsed-time loop, `_countdownInterval` for the countdown loop), derives a
formatted duration from timestamps on every tick, and dispatches side effects
(a warning notification, a terminate command) when the displayed countdown
value reaches canonical threshold strings.

Modelling decisions:

* Timestamps are `Option Int` (milliseconds since epoch, or absent).
  JavaScript truthiness of a timestamp (`!t`) is `truthy`: absent and the
  number `0` are both falsy.
* `setInterval` is modelled by an allocator: each start operation draws a
  fresh positive handle id from `nextId` and adds it to the `scheduled`
  list; `clearInterval` removes the id from `scheduled` but — exactly as in
  the source — does not reset the stored handle field.  A tick event for a
  handle id fires its callback only while that id is in `scheduled`, which
  models the synchronous-cancellation semantics of `clearInterval`.
* React's `setState` is modelled as a synchronous state update; every
  `setState` of `timerValue` is also recorded as a `publish` effect.
* The external duration formatter is a parameter `fmt : Int → String`
  throughout; a concrete representative `formatDuration` is provided for
  witnesses and counterexamples.
-/

namespace ConfTimer

/-- An observable effect emitted by the engine: a display publish
(`setState` of `timerValue`), the switch to the red alert style, the
warning notification dispatch, or the terminate (`endConference`) dispatch. -/
inductive Effect where
  | publish (v : String)
  | styleAlert
  | notify (period : String) (periodType : String)
  | terminate
deriving DecidableEq

/-- The spec's `Mode`: `Idle`, `Elapsed` or `Countdown`. -/
inductive Mode where
  | Idle
  | Elapsed
  | Countdown
deriving DecidableEq

/-- The state of a `ConferenceTimer` instance: the React component state
(`timerValue`, whether the red alert style is set), the two props
(`_startTimestamp`, `_endTimestamp`), the two interval handle fields
(`_interval`, `_countdownInterval`), the set of interval ids that are
actually scheduled, and the allocator counter for fresh ids. -/
structure EngineState where
  timerValue : String
  styleRed : Bool
  startTimestamp : Option Int
  endTimestamp : Option Int
  interval : Option Nat
  countdownInterval : Option Nat
  scheduled : List Nat
  nextId : Nat
deriving DecidableEq

/-- JavaScript truthiness of an optional timestamp: absent and `0` are falsy. -/
def truthy : Option Int → Bool
  | none => false
  | some v => v != 0

/-- JavaScript truthiness of a stored interval handle: absent (`undefined`)
and the id `0` are falsy.  Real `setInterval` ids are positive. -/
def truthyN : Option Nat → Bool
  | none => false
  | some n => n != 0

/-- `clearInterval` on a stored handle: removes the id from the scheduled
set when the handle is truthy, otherwise does nothing.  The handle field
itself is not touched (the source never nulls it). -/
def eraseHandle (h : Option Nat) (sched : List Nat) : List Nat :=
  match h with
  | none => sched
  | some n => if n = 0 then sched else sched.filter (fun m => m != n)

/-- Is the handle in `h` currently scheduled? -/
def isScheduled (s : EngineState) (h : Option Nat) : Bool :=
  match h with
  | none => false
  | some n => decide (n ∈ s.scheduled)

/-- The elapsed-mode loop is actively scheduled. -/
def elapsedRunning (s : EngineState) : Bool :=
  isScheduled s s.interval

/-- The countdown-mode loop is actively scheduled. -/
def countdownRunning (s : EngineState) : Bool :=
  isScheduled s s.countdownInterval

/-- The spec-level `Mode` derived from which loop is actively scheduled. -/
def mode (s : EngineState) : Mode :=
  if countdownRunning s then Mode.Countdown
  else if elapsedRunning s then Mode.Elapsed
  else Mode.Idle

/-- `_setStateFromUTC(refValueUTC, currentValueUTC)`: skip when either value
is falsy (absent or `0`) or when `currentValueUTC < refValueUTC`; otherwise
format `currentValueUTC - refValueUTC` and publish it as `timerValue`. -/
def setStateFromUTC (fmt : Int → String) (ref cur : Option Int)
    (s : EngineState) : EngineState × List Effect :=
  match ref, cur with
  | some r, some c =>
      if r = 0 ∨ c = 0 then (s, [])
      else if c < r then (s, [])
      else
        let v := fmt (c - r)
        ({ s with timerValue := v }, [Effect.publish v])
  | _, _ => (s, [])

/-- `_startTimer()`: when the `_interval` handle is falsy, do the immediate
update from `_startTimestamp` and the current time, then schedule the
elapsed loop and store its fresh handle.  Otherwise a no-op. -/
def startTimer (fmt : Int → String) (now : Int) (s : EngineState) :
    EngineState × List Effect :=
  if truthyN s.interval then (s, [])
  else
    let p := setStateFromUTC fmt s.startTimestamp (some now) s
    let h := p.1.nextId
    ({ p.1 with interval := some h, scheduled := h :: p.1.scheduled,
                nextId := h + 1 }, p.2)

/-- `_stopTimer()`: `clearInterval(this._interval)` when the handle is
truthy; the handle field is left as it was. -/
def stopTimer (s : EngineState) : EngineState :=
  { s with scheduled := eraseHandle s.interval s.scheduled }

/-- `_stopCountdownTimer()`: `clearInterval(this._countdownInterval)` when
that handle is truthy (the field is left as it was), then unconditionally
reset `timerValue` to `fmt 0`. -/
def stopCountdownTimer (fmt : Int → String) (s : EngineState) :
    EngineState × List Effect :=
  let s1 := { s with scheduled := eraseHandle s.countdownInterval s.scheduled }
  let v := fmt 0
  ({ s1 with timerValue := v }, [Effect.publish v])

/-- `_startCountdown()`: when the `_countdownInterval` handle is falsy, do
the immediate update from the current time and `_endTimestamp`, then
schedule the countdown loop and store its fresh handle.  Otherwise a no-op. -/
def startCountdown (fmt : Int → String) (now : Int) (s : EngineState) :
    EngineState × List Effect :=
  if truthyN s.countdownInterval then (s, [])
  else
    let p := setStateFromUTC fmt (some now) s.endTimestamp s
    let h := p.1.nextId
    ({ p.1 with countdownInterval := some h, scheduled := h :: p.1.scheduled,
                nextId := h + 1 }, p.2)

/-- The body of the elapsed-loop `setInterval` callback: update from
`_startTimestamp` and the current time. -/
def elapsedTickBody (fmt : Int → String) (now : Int) (s : EngineState) :
    EngineState × List Effect :=
  setStateFromUTC fmt s.startTimestamp (some now) s

/-- The body of the countdown-loop `setInterval` callback: update from the
current time and `_endTimestamp`, then evaluate the two threshold checks on
the (possibly stale) displayed `timerValue`: at `"00:30"` switch to the red
style and dispatch the warning notification; at `"00:01"` dispatch
terminate and stop the countdown timer. -/
def countdownTickBody (fmt : Int → String) (now : Int) (s : EngineState) :
    EngineState × List Effect :=
  let p1 := setStateFromUTC fmt (some now) s.endTimestamp s
  let p2 :=
    if p1.1.timerValue = "00:30" then
      ({ p1.1 with styleRed := true },
       [Effect.styleAlert, Effect.notify "30" "seconds"])
    else (p1.1, [])
  let p3 :=
    if p2.1.timerValue = "00:01" then
      let q := stopCountdownTimer fmt p2.1
      (q.1, Effect.terminate :: q.2)
    else (p2.1, [])
  (p3.1, p1.2 ++ p2.2 ++ p3.2)

/-- `componentDidUpdate` restricted to its only action: when the new
`_endTimestamp` is truthy and differs from the previous one, stop the
elapsed timer and start the countdown.  The state's `endTimestamp` prop is
updated to the new value first, as React updates props before the hook. -/
def setEndTimestamp (fmt : Int → String) (newEnd : Option Int) (now : Int)
    (s : EngineState) : EngineState × List Effect :=
  let prev := s.endTimestamp
  let s0 := { s with endTimestamp := newEnd }
  if truthy newEnd && (prev != newEnd) then
    startCountdown fmt now (stopTimer s0)
  else (s0, [])

/-- `render()`: `null` when `_startTimestamp` is falsy, otherwise the
displayed value and style. -/
def render (s : EngineState) : Option (String × Bool) :=
  if truthy s.startTimestamp then some (s.timerValue, s.styleRed) else none

/-- An external stimulus to the component: mount (`componentDidMount`), a
change of the `_endTimestamp` prop (driving `componentDidUpdate`), the
firing of a scheduled interval with a given handle id, or unmount
(`componentWillUnmount`). -/
inductive Event where
  | mount (now : Int)
  | setEnd (newEnd : Option Int) (now : Int)
  | tick (h : Nat) (now : Int)
  | unmount
deriving DecidableEq

/-- One step of the engine.  A `tick h` fires only while `h` is scheduled,
and runs the callback of whichever loop stored `h` as its handle. -/
def step (fmt : Int → String) (s : EngineState) : Event → EngineState × List Effect
  | Event.mount now => startTimer fmt now s
  | Event.setEnd newEnd now => setEndTimestamp fmt newEnd now s
  | Event.tick h now =>
      if h ∈ s.scheduled then
        if s.interval = some h then elapsedTickBody fmt now s
        else if s.countdownInterval = some h then countdownTickBody fmt now s
        else (s, [])
      else (s, [])
  | Event.unmount => (stopTimer s, [])

/-- Run a sequence of events, collecting the emitted effects in order. -/
def run (fmt : Int → String) : EngineState → List Event → EngineState × List Effect
  | s, [] => (s, [])
  | s, e :: es =>
      let p := step fmt s e
      let q := run fmt p.1 es
      (q.1, p.2 ++ q.2)

/-- The constructor's initial state: `timerValue` is `fmt 0`, no style, no
handles, nothing scheduled; handle ids will be allocated from `1`. -/
def initState (fmt : Int → String) (startTs endTs : Option Int) : EngineState :=
  { timerValue := fmt 0
    styleRed := false
    startTimestamp := startTs
    endTimestamp := endTs
    interval := none
    countdownInterval := none
    scheduled := []
    nextId := 1 }

/-- Modelled from the spec: the external duration formatter
`getLocalizedDurationFormatter` (not part of this repository) consumed as an
opaque pure function; per the spec it renders `"MM:SS"` below one hour and
`"H:MM:SS"` above, e.g. 65000 ms is `"01:05"`, 0 ms is `"00:00"`. -/
def formatDuration (ms : Int) : String :=
  let total := ms.toNat / 1000
  let sec := total % 60
  let minutes := total / 60 % 60
  let hours := total / 3600
  let pad2 := fun (n : Nat) => (if n < 10 then "0" else "") ++ toString n
  if hours = 0 then pad2 minutes ++ ":" ++ pad2 sec
  else toString hours ++ ":" ++ pad2 minutes ++ ":" ++ pad2 sec

/-! ## Concrete states and traces used by counterexamples and witnesses -/

/-- The stored handle, when present, was allocated below the current
allocator counter; this holds in every reachable state. -/
def handleFresh : Option Nat → Nat → Bool
  | none, _ => true
  | some n, k => decide (n < k)

/-- State after mounting with `startTimestamp = 1000`, a deadline change to
`61000` at time `2000` (which starts the countdown loop, handle `2`), and an
unmount. -/
def c1State : EngineState :=
  (run formatDuration (initState formatDuration (some 1000) none)
    [Event.mount 1000, Event.setEnd (some 61000) 2000, Event.unmount]).1

/-- State after mounting with `startTimestamp = 1000` (elapsed loop handle
`1`) and then unmounting. -/
def c2State : EngineState :=
  (run formatDuration (initState formatDuration (some 1000) none)
    [Event.mount 1000, Event.unmount]).1

/-- State after mounting with `startTimestamp = 1000` and a first deadline
change to `61000` at time `2000`: the countdown loop (handle `2`) is active. -/
def c3State : EngineState :=
  (run formatDuration (initState formatDuration (some 1000) none)
    [Event.mount 1000, Event.setEnd (some 61000) 2000]).1

/-- Claim C6 counterexample trace: the elapsed display reaches `"00:01"`
(one second elapsed), then the deadline is set to `1500`, which lies in the
past, so every countdown update is skipped; the first countdown tick then
reads the stale `"00:01"` and dispatches terminate. -/
def c6Events : List Event :=
  [Event.mount 2000, Event.setEnd (some 1500) 3000, Event.tick 2 4000]

/-- Claim C7 counterexample trace: the elapsed display reaches `"00:30"`,
then the deadline is set to the past value `1500`; two countdown ticks each
skip the update and each re-fires the warning on the stale `"00:30"`. -/
def c7Events : List Event :=
  [Event.mount 31000, Event.setEnd (some 1500) 32000,
   Event.tick 2 33000, Event.tick 2 34000]

/-- State with the stale elapsed display `"00:30"` and an active countdown
loop whose deadline `1500` is already in the past. -/
def c8State : EngineState :=
  (run formatDuration (initState formatDuration (some 1000) none)
    [Event.mount 31000, Event.setEnd (some 1500) 32000]).1

def c1WitState : EngineState :=
  (run formatDuration (initState formatDuration (some 1000) none)
    [Event.mount 1000]).1

def c2WitState : EngineState :=
  (run formatDuration (initState formatDuration (some 1000) none)
    [Event.mount 1000, Event.setEnd (some 61000) 2000]).1

/-- the countdown loop was started and then terminated: its handle `2` is
set but no longer scheduled. -/
def c3WitState : EngineState :=
  (run formatDuration (initState formatDuration (some 1000) none)
    [Event.mount 1000]).1

def c6WitState : EngineState :=
  { timerValue := "00:02", styleRed := false, startTimestamp := some 1000,
    endTimestamp := some 61000, interval := some 1, countdownInterval := some 2,
    scheduled := [2], nextId := 3 }

def c7WitState : EngineState :=
  { timerValue := "00:31", styleRed := false, startTimestamp := some 1000,
    endTimestamp := some 61000, interval := some 1, countdownInterval := some 2,
    scheduled := [2], nextId := 3 }

def c10WitState : EngineState :=
  { timerValue := "00:00", styleRed := false, startTimestamp := some 1000,
    endTimestamp := some 61000, interval := some 1, countdownInterval := some 2,
    scheduled := [], nextId := 3 }

/-! ## Helper lemmas -/

/-- `_setStateFromUTC` touches only `timerValue`; every other field of the
state is preserved. -/
theorem setStateFromUTC_preserves (fmt : Int → String) (ref cur : Option Int)
    (s : EngineState) :
    (setStateFromUTC fmt ref cur s).1.styleRed = s.styleRed
    ∧ (setStateFromUTC fmt ref cur s).1.startTimestamp = s.startTimestamp
    ∧ (setStateFromUTC fmt ref cur s).1.endTimestamp = s.endTimestamp
    ∧ (setStateFromUTC fmt ref cur s).1.interval = s.interval
    ∧ (setStateFromUTC fmt ref cur s).1.countdownInterval = s.countdownInterval
    ∧ (setStateFromUTC fmt ref cur s).1.scheduled = s.scheduled
    ∧ (setStateFromUTC fmt ref cur s).1.nextId = s.nextId := by
  unfold setStateFromUTC
  rcases ref with _ | r <;> rcases cur with _ | c <;> simp
  split
  · simp
  · split <;> simp

/-- `_setStateFromUTC` emits either nothing or a single publish of the new
`timerValue`. -/
theorem setStateFromUTC_effects (fmt : Int → String) (ref cur : Option Int)
    (s : EngineState) :
    (setStateFromUTC fmt ref cur s).2 = []
    ∨ (setStateFromUTC fmt ref cur s).2
        = [Effect.publish ((setStateFromUTC fmt ref cur s).1.timerValue)] := by
  unfold setStateFromUTC
  rcases ref with _ | r <;> rcases cur with _ | c <;> simp
  split
  · simp
  · split <;> simp

/-- A negative delta makes `_setStateFromUTC` a strict no-op. -/
theorem setStateFromUTC_skip (fmt : Int → String) (r c : Int) (s : EngineState)
    (h : c < r) : setStateFromUTC fmt (some r) (some c) s = (s, []) := by
  simp only [setStateFromUTC]
  split
  · rfl
  · simp [h]

/-- `clearInterval` only removes ids, never adds them. -/
theorem mem_eraseHandle {m : Nat} (h : Option Nat) (l : List Nat) :
    m ∈ eraseHandle h l → m ∈ l := by
  rcases h with _ | n
  · exact id
  · intro hm
    by_cases h0 : n = 0
    · simpa [eraseHandle, h0] using hm
    · rw [eraseHandle, if_neg h0] at hm
      exact (List.mem_filter.mp hm).1

/-- `clearInterval` on a nonzero handle removes that handle from the
scheduled set. -/
theorem not_mem_eraseHandle_self {n : Nat} (hn : n ≠ 0) (l : List Nat) :
    n ∉ eraseHandle (some n) l := by
  rw [eraseHandle, if_neg hn]
  simp [List.mem_filter]

/-- `clearInterval` on one handle does not affect membership of another. -/
theorem mem_eraseHandle_of_ne {m n : Nat} (l : List Nat) (hmn : m ≠ n) :
    m ∈ eraseHandle (some n) l ↔ m ∈ l := by
  rw [eraseHandle]
  split
  · exact Iff.rfl
  · simp [List.mem_filter, hmn]

/-! ## Claim C9 -/

/-- Claim C9: a timestamp numerically equal to `0` is treated the same as an
absent timestamp by the duration-update path: when either the reference or
the current timestamp passed to `_setStateFromUTC` is `0`, the update is
skipped and no duration is published. -/
theorem claim9_zero_timestamp (fmt : Int → String) (ref cur : Option Int)
    (s : EngineState) (h : ref = some 0 ∨ cur = some 0) :
    setStateFromUTC fmt ref cur s = (s, []) := by
  unfold setStateFromUTC
  rcases h with rfl | rfl
  · rcases cur with _ | c <;> simp
  · rcases ref with _ | r <;> simp

theorem claim9_witness :
    ((some 0 : Option Int) = some 0 ∨ (some 5 : Option Int) = some 0)
    ∧ setStateFromUTC formatDuration (some 0) (some 5)
        (initState formatDuration (some 0) none)
      = (initState formatDuration (some 0) none, []) :=
  ⟨Or.inl rfl,
   claim9_zero_timestamp formatDuration (some 0) (some 5)
     (initState formatDuration (some 0) none) (Or.inl rfl)⟩

/-! ## Concrete counterexample traces -/

/-- Claim C1 counterexample: after deactivation (unmount) with an active
countdown loop, the countdown loop is still scheduled and the mode is still
`Countdown`, not `Idle` — `componentWillUnmount` calls only `_stopTimer`. -/
theorem claim1_counterexample :
    countdownRunning c1State = true ∧ mode c1State = Mode.Countdown := by
  decide

/-- Claim C2 counterexample: after `_stopTimer` cancels the elapsed loop the
handle `_interval` is still non-null while the loop is no longer scheduled,
so "handle is non-null" is not "is running". -/
theorem claim2_counterexample :
    truthyN c2State.interval = true ∧ elapsedRunning c2State = false := by
  decide

/-- Claim C3 counterexample: a second deadline change (to the present,
differing value `120000`) while the countdown loop is active neither stops
that loop (handle `2` stays scheduled) nor starts a new one (no id is
allocated, no immediate publish), and the old loop's next tick still runs. -/
theorem claim3_counterexample :
    countdownRunning c3State = true
    ∧ (step formatDuration c3State (Event.setEnd (some 120000) 3000)).2 = []
    ∧ (step formatDuration c3State (Event.setEnd (some 120000) 3000)).1.scheduled
        = [2]
    ∧ (step formatDuration c3State (Event.setEnd (some 120000) 3000)).1.nextId = 3
    ∧ (step formatDuration
        (step formatDuration c3State (Event.setEnd (some 120000) 3000)).1
        (Event.tick 2 4000)).2
        = [Effect.publish (formatDuration 116000)] := by
  decide

/-- Claim C4 counterexample: activation (mount) with `startTimestamp` absent
publishes nothing, but it does create and schedule the repeating elapsed
interval, contrary to "no repeating timer is created". -/
theorem claim4_counterexample :
    (step formatDuration (initState formatDuration none none)
        (Event.mount 1000)).2 = []
    ∧ truthyN (step formatDuration (initState formatDuration none none)
        (Event.mount 1000)).1.interval = true
    ∧ elapsedRunning (step formatDuration (initState formatDuration none none)
        (Event.mount 1000)).1 = true := by
  decide

/-- Claim C5 counterexample: with the present timestamp `startTimestamp = 0`
(the Unix epoch) and `now = 5`, so `startTimestamp ≤ now`, activation
publishes nothing at all — `0` is falsy and `_setStateFromUTC` bails out —
instead of publishing `formatDuration (5 - 0)`. -/
theorem claim5_counterexample :
    (0 : Int) ≤ 5
    ∧ (step formatDuration (initState formatDuration (some 0) none)
        (Event.mount 5)).2 = [] := by
  decide

/-- Claim C6 counterexample: terminate is dispatched although no countdown
tick ever formatted a remaining-time value (the remaining time was negative
at the only countdown tick, and the whole countdown lifecycle publishes
nothing before the terminate) — the trigger was the stale elapsed-mode
display `"00:01"`. -/
theorem claim6_counterexample :
    (run formatDuration (initState formatDuration (some 1000) none) c6Events).2
      = [Effect.publish "00:01", Effect.terminate, Effect.publish "00:00"]
    ∧ (1500 : Int) - 4000 < 0 := by
  decide

/-- Claim C7 counterexample: two warning notifications are dispatched in a
single countdown lifecycle (and none of them at a tick whose formatted
remaining time was `"00:30"` — the remaining time was negative at both
ticks), contradicting "exactly one per countdown lifecycle". -/
theorem claim7_counterexample :
    ((run formatDuration (initState formatDuration (some 1000) none)
        c7Events).2.count (Effect.notify "30" "seconds")) = 2 := by
  decide

/-- Claim C8 counterexample: at a countdown tick whose computed delta is
negative (`1500 - 33000 < 0`) the duration update is indeed skipped, yet the
tick still changes the display style to the alert style (and fires effects)
based on the stale displayed value, contradicting "the display style remains
unchanged by that tick". -/
theorem claim8_counterexample :
    c8State.styleRed = false
    ∧ c8State.endTimestamp = some 1500
    ∧ (1500 : Int) - 33000 < 0
    ∧ (step formatDuration c8State (Event.tick 2 33000)).1.styleRed = true := by
  decide

/-! ## Amended claims -/

/-- A tick whose handle is not scheduled is a complete no-op: the `clearInterval`
model guarantees a canceled loop's callback never runs. -/
theorem step_tick_not_scheduled (fmt : Int → String) (s : EngineState)
    (h : Nat) (now : Int) (hns : h ∉ s.scheduled) :
    step fmt s (Event.tick h now) = (s, []) := by
  simp only [step]
  rw [if_neg hns]

/-- The result state of `_setStateFromUTC` is the input state with at most
`timerValue` replaced. -/
theorem setStateFromUTC_shape (fmt : Int → String) (ref cur : Option Int)
    (s : EngineState) :
    (setStateFromUTC fmt ref cur s).1
      = { s with timerValue := (setStateFromUTC fmt ref cur s).1.timerValue } := by
  unfold setStateFromUTC
  rcases ref with _ | r <;> rcases cur with _ | c <;> simp
  split
  · simp
  · split <;> simp

/-- After `_stopTimer`, the elapsed loop is not scheduled (for any state
whose elapsed handle is not the degenerate id `0`). -/
theorem elapsedRunning_stopTimer (s : EngineState) (h0 : s.interval ≠ some 0) :
    elapsedRunning (stopTimer s) = false := by
  unfold elapsedRunning stopTimer isScheduled
  rcases hi : s.interval with _ | n
  · rfl
  · have hn : n ≠ 0 := fun h => h0 (by rw [hi, h])
    simp [not_mem_eraseHandle_self hn]

/-- `clearInterval` is idempotent on the scheduled set. -/
theorem eraseHandle_idem (h : Option Nat) (l : List Nat) :
    eraseHandle h (eraseHandle h l) = eraseHandle h l := by
  rcases h with _ | n
  · rfl
  · by_cases h0 : n = 0
    · simp [eraseHandle, h0]
    · simp [eraseHandle, h0, List.filter_filter]

/-- Claim C1 (amended): deactivation stops the Elapsed loop and is a safe,
idempotent no-op when no loop is running, but it does not stop an active
Countdown loop (its scheduling is untouched whenever its handle differs
from the elapsed handle); consequently `Mode` returns to `Idle` after
deactivation only when no countdown loop was running. -/
theorem claim1_deactivation (s : EngineState)
    (h0 : s.interval ≠ some 0)
    (hd : s.interval = none ∨ s.interval ≠ s.countdownInterval) :
    elapsedRunning (stopTimer s) = false
    ∧ stopTimer (stopTimer s) = stopTimer s
    ∧ countdownRunning (stopTimer s) = countdownRunning s
    ∧ (countdownRunning s = false → mode (stopTimer s) = Mode.Idle) := by
  have hrun : elapsedRunning (stopTimer s) = false := by
    unfold elapsedRunning stopTimer isScheduled
    rcases hi : s.interval with _ | n
    · rfl
    · have hn : n ≠ 0 := by
        intro h; exact h0 (by rw [hi, h])
      simp [not_mem_eraseHandle_self hn]
  refine ⟨hrun, ?_, ?_, ?_⟩
  · unfold stopTimer
    simp [eraseHandle_idem]
  · unfold countdownRunning stopTimer isScheduled
    rcases hc : s.countdownInterval with _ | m
    · rfl
    · rcases hi : s.interval with _ | n
      · rfl
      · have hne : m ≠ n := by
          rcases hd with hd | hd
          · rw [hi] at hd; exact absurd hd (by simp)
          · intro h; rw [hi, hc, h] at hd; exact hd rfl
        simp [mem_eraseHandle_of_ne _ hne]
  · intro hfalse
    have hcds : countdownRunning (stopTimer s) = false := by
      unfold countdownRunning isScheduled at hfalse
      unfold countdownRunning stopTimer isScheduled
      rcases hc : s.countdownInterval with _ | m
      · rfl
      · rw [hc] at hfalse
        simp only [decide_eq_false_iff_not] at hfalse ⊢
        exact fun hm => hfalse (mem_eraseHandle s.interval s.scheduled hm)
    unfold mode
    rw [hcds, hrun]
    rfl

theorem claim1_witness :
    c1WitState.interval ≠ some 0
    ∧ (c1WitState.interval = none
       ∨ c1WitState.interval ≠ c1WitState.countdownInterval)
    ∧ (elapsedRunning (stopTimer c1WitState) = false
       ∧ stopTimer (stopTimer c1WitState) = stopTimer c1WitState
       ∧ countdownRunning (stopTimer c1WitState) = countdownRunning c1WitState
       ∧ (countdownRunning c1WitState = false →
           mode (stopTimer c1WitState) = Mode.Idle)) :=
  ⟨by decide, by decide,
   claim1_deactivation c1WitState (by decide) (by decide)⟩

/-- Claim C2 (amended): every stop operation cancels its loop's scheduling
but leaves the stored handle untouched — it never clears it to null.  Hence
"is running" implies "handle is non-null", but a non-null handle does not
imply the loop is still scheduled. -/
theorem claim2_handle_invariant (fmt : Int → String) (s : EngineState)
    (h0 : s.interval ≠ some 0) (hc0 : s.countdownInterval ≠ some 0) :
    (stopTimer s).interval = s.interval
    ∧ (stopCountdownTimer fmt s).1.countdownInterval = s.countdownInterval
    ∧ elapsedRunning (stopTimer s) = false
    ∧ countdownRunning (stopCountdownTimer fmt s).1 = false
    ∧ (elapsedRunning s = true → truthyN s.interval = true)
    ∧ (countdownRunning s = true → truthyN s.countdownInterval = true) := by
  refine ⟨rfl, rfl, ?_, ?_, ?_, ?_⟩
  · unfold elapsedRunning stopTimer isScheduled
    rcases hi : s.interval with _ | n
    · rfl
    · have hn : n ≠ 0 := fun h => h0 (by rw [hi, h])
      simp [not_mem_eraseHandle_self hn]
  · unfold countdownRunning stopCountdownTimer isScheduled
    rcases hc : s.countdownInterval with _ | m
    · rfl
    · have hm : m ≠ 0 := fun h => hc0 (by rw [hc, h])
      simp [not_mem_eraseHandle_self hm]
  · unfold elapsedRunning isScheduled truthyN
    rcases hi : s.interval with _ | n
    · simp
    · have hn : n ≠ 0 := fun h => h0 (by rw [hi, h])
      simp [hn]
  · unfold countdownRunning isScheduled truthyN
    rcases hc : s.countdownInterval with _ | m
    · simp
    · have hm : m ≠ 0 := fun h => hc0 (by rw [hc, h])
      simp [hm]

theorem claim2_witness :
    c2WitState.interval ≠ some 0
    ∧ c2WitState.countdownInterval ≠ some 0
    ∧ ((stopTimer c2WitState).interval = c2WitState.interval
       ∧ (stopCountdownTimer formatDuration c2WitState).1.countdownInterval
           = c2WitState.countdownInterval
       ∧ elapsedRunning (stopTimer c2WitState) = false
       ∧ countdownRunning (stopCountdownTimer formatDuration c2WitState).1 = false
       ∧ (elapsedRunning c2WitState = true → truthyN c2WitState.interval = true)
       ∧ (countdownRunning c2WitState = true →
           truthyN c2WitState.countdownInterval = true)) :=
  ⟨by decide, by decide,
   claim2_handle_invariant formatDuration c2WitState (by decide) (by decide)⟩

/-- Claim C4 (amended): when activation happens with `startTimestamp`
absent, nothing is rendered and no display update is published — but the
repeating Elapsed tick loop IS created and scheduled; while the start
timestamp stays absent every one of its ticks is a complete no-op. -/
theorem claim4_absent_start (fmt : Int → String) (now : Int) (endTs : Option Int) :
    (step fmt (initState fmt none endTs) (Event.mount now)).2 = []
    ∧ render (step fmt (initState fmt none endTs) (Event.mount now)).1 = none
    ∧ elapsedRunning (step fmt (initState fmt none endTs) (Event.mount now)).1
        = true
    ∧ ∀ h now2,
        step fmt (step fmt (initState fmt none endTs) (Event.mount now)).1
          (Event.tick h now2)
        = ((step fmt (initState fmt none endTs) (Event.mount now)).1, []) := by
  have hstep : step fmt (initState fmt none endTs) (Event.mount now)
      = ({ initState fmt none endTs with
            interval := some 1, scheduled := [1], nextId := 2 }, []) := by
    simp [step, startTimer, initState, truthyN, setStateFromUTC]
  rw [hstep]
  refine ⟨rfl, rfl, by simp [elapsedRunning, isScheduled, initState], ?_⟩
  intro h now2
  by_cases hh : h = 1
  · subst hh
    simp [step, initState, elapsedTickBody, setStateFromUTC]
  · simp [step, initState, hh]

theorem claim4_witness :
    step formatDuration
        (step formatDuration (initState formatDuration none none)
          (Event.mount 1000)).1 (Event.tick 1 2000)
      = ((step formatDuration (initState formatDuration none none)
          (Event.mount 1000)).1, []) :=
  (claim4_absent_start formatDuration 1000 none).2.2.2 1 2000

/-- Claim C5 (amended): for every present `startTimestamp` with
`0 < startTimestamp ≤ now`, activation immediately publishes
`formatDuration (now − startTimestamp)`.  (The amendment excludes the value
`0`, which the update path treats as absent — see C9.) -/
theorem claim5_activate (fmt : Int → String) (t now : Int) (endTs : Option Int)
    (hpos : 0 < t) (hle : t ≤ now) :
    (step fmt (initState fmt (some t) endTs) (Event.mount now)).2
      = [Effect.publish (fmt (now - t))] := by
  have ht : ¬ (t = 0 ∨ now = 0) := by omega
  have hlt : ¬ (now < t) := by omega
  simp [step, startTimer, initState, truthyN, setStateFromUTC, ht, hlt]

theorem claim5_witness :
    (0 : Int) < 1000
    ∧ (1000 : Int) ≤ 66000
    ∧ (step formatDuration (initState formatDuration (some 1000) none)
        (Event.mount 66000)).2 = [Effect.publish (formatDuration (66000 - 1000))] :=
  ⟨by decide, by decide,
   claim5_activate formatDuration 1000 66000 none (by decide) (by decide)⟩

/-- Claim C8 (amended): a negative computed delta makes the duration-update
step a strict no-op: the state — displayed string and style alike — is left
exactly as it was and nothing is published; in Elapsed mode the whole tick
body is that update, so the whole tick is a no-op.  (In Countdown mode the
threshold checks still run afterwards against the stale displayed value and
may change the style or fire effects — see the counterexample.) -/
theorem claim8_negative_delta (fmt : Int → String) (now t : Int)
    (s : EngineState) (hstart : s.startTimestamp = some t) (hn : now < t) :
    elapsedTickBody fmt now s = (s, [])
    ∧ ∀ r c : Int, c < r → setStateFromUTC fmt (some r) (some c) s = (s, []) := by
  constructor
  · rw [elapsedTickBody, hstart]
    exact setStateFromUTC_skip fmt t now s hn
  · exact fun r c h => setStateFromUTC_skip fmt r c s h

theorem claim8_witness :
    (initState formatDuration (some 10000) none).startTimestamp = some 10000
    ∧ (5 : Int) < 10000
    ∧ (elapsedTickBody formatDuration 5 (initState formatDuration (some 10000) none)
        = (initState formatDuration (some 10000) none, [])
       ∧ ∀ r c : Int, c < r →
          setStateFromUTC formatDuration (some r) (some c)
            (initState formatDuration (some 10000) none)
          = (initState formatDuration (some 10000) none, [])) :=
  ⟨rfl, by decide,
   claim8_negative_delta formatDuration 5 10000
     (initState formatDuration (some 10000) none) rfl (by decide)⟩

theorem startCountdown_noop (fmt : Int → String) (now : Int) (s : EngineState)
    (h : truthyN s.countdownInterval = true) :
    startCountdown fmt now s = (s, []) := by
  rw [startCountdown, if_pos h]

theorem startCountdown_run (fmt : Int → String) (now : Int) (s : EngineState)
    (h : truthyN s.countdownInterval = false) :
    startCountdown fmt now s
      = ({ (setStateFromUTC fmt (some now) s.endTimestamp s).1 with
            countdownInterval := some s.nextId,
            scheduled :=
              s.nextId :: (setStateFromUTC fmt (some now) s.endTimestamp s).1.scheduled,
            nextId := s.nextId + 1 },
         (setStateFromUTC fmt (some now) s.endTimestamp s).2) := by
  obtain ⟨-, -, -, -, -, -, hnid⟩ :=
    setStateFromUTC_preserves fmt (some now) s.endTimestamp s
  rw [startCountdown, if_neg (by rw [h]; exact Bool.false_ne_true)]
  simp only [hnid]

/-- Claim C3 (amended): on every deadline change to a present value that
differs from the previously observed one, the engine stops any active
Elapsed loop before starting the Countdown loop, and no tick of the elapsed
handle executes afterwards; when no countdown handle exists yet the
Countdown loop is started (with a fresh handle).  However, an already
existing countdown handle makes the start a permanent no-op: an active
Countdown loop is not stopped and no new loop, immediate publish, or handle
allocation happens. -/
theorem claim3_deadline_change (fmt : Int → String) (s : EngineState)
    (newEnd : Option Int) (now : Int)
    (ht : truthy newEnd = true)
    (hne : s.endTimestamp ≠ newEnd)
    (h0 : s.interval ≠ some 0)
    (hfresh : handleFresh s.interval s.nextId = true) :
    elapsedRunning (setEndTimestamp fmt newEnd now s).1 = false
    ∧ (∀ h now2, s.interval = some h →
        step fmt (setEndTimestamp fmt newEnd now s).1 (Event.tick h now2)
          = ((setEndTimestamp fmt newEnd now s).1, []))
    ∧ (s.countdownInterval = none →
        (setEndTimestamp fmt newEnd now s).1.countdownInterval = some s.nextId
        ∧ countdownRunning (setEndTimestamp fmt newEnd now s).1 = true)
    ∧ (truthyN s.countdownInterval = true →
        (setEndTimestamp fmt newEnd now s).2 = []
        ∧ (setEndTimestamp fmt newEnd now s).1.nextId = s.nextId) := by
  have hcond : (truthy newEnd && (s.endTimestamp != newEnd)) = true := by
    simp [ht, hne]
  have hP : setEndTimestamp fmt newEnd now s
      = startCountdown fmt now (stopTimer { s with endTimestamp := newEnd }) := by
    simp only [setEndTimestamp, hcond, if_true]
  by_cases hcdT : truthyN s.countdownInterval = true
  · -- an old countdown handle exists: the start is a no-op
    have hA : setEndTimestamp fmt newEnd now s
        = (stopTimer { s with endTimestamp := newEnd }, []) := by
      rw [hP]
      exact startCountdown_noop fmt now _ hcdT
    refine ⟨?_, ?_, ?_, ?_⟩
    · rw [hA]
      exact elapsedRunning_stopTimer { s with endTimestamp := newEnd } h0
    · intro h now2 hi
      have hh : h ≠ 0 := fun hz => h0 (by rw [hi, hz])
      have hnm : h ∉ (stopTimer { s with endTimestamp := newEnd }).scheduled := by
        show h ∉ eraseHandle s.interval s.scheduled
        rw [hi]
        exact not_mem_eraseHandle_self hh s.scheduled
      rw [hA]
      exact step_tick_not_scheduled fmt _ h now2 hnm
    · intro hnone
      rw [hnone] at hcdT
      exact absurd hcdT (by simp [truthyN])
    · intro _
      rw [hA]
      exact ⟨rfl, rfl⟩
  · -- no countdown handle yet: the countdown loop starts with a fresh handle
    have hF : truthyN s.countdownInterval = false := by
      simpa using hcdT
    have hB : setEndTimestamp fmt newEnd now s
        = ({ (setStateFromUTC fmt (some now) newEnd
                (stopTimer { s with endTimestamp := newEnd })).1 with
              countdownInterval := some s.nextId,
              scheduled := s.nextId :: (setStateFromUTC fmt (some now) newEnd
                (stopTimer { s with endTimestamp := newEnd })).1.scheduled,
              nextId := s.nextId + 1 },
           (setStateFromUTC fmt (some now) newEnd
              (stopTimer { s with endTimestamp := newEnd })).2) := by
      rw [hP]
      exact startCountdown_run fmt now _ hF
    have hpres := setStateFromUTC_preserves fmt (some now) newEnd
      (stopTimer { s with endTimestamp := newEnd })
    have hPint : (setEndTimestamp fmt newEnd now s).1.interval = s.interval := by
      rw [hB]
      exact hpres.2.2.2.1
    have hPsch : (setEndTimestamp fmt newEnd now s).1.scheduled
        = s.nextId :: eraseHandle s.interval s.scheduled := by
      rw [hB]
      show s.nextId :: (setStateFromUTC fmt (some now) newEnd
        (stopTimer { s with endTimestamp := newEnd })).1.scheduled = _
      rw [hpres.2.2.2.2.2.1]
      rfl
    have hPcnt : (setEndTimestamp fmt newEnd now s).1.countdownInterval
        = some s.nextId := by
      rw [hB]
    refine ⟨?_, ?_, ?_, ?_⟩
    · unfold elapsedRunning isScheduled
      rw [hPint, hPsch]
      rcases hi : s.interval with _ | n
      · rfl
      · have hn : n ≠ 0 := fun h => h0 (by rw [hi, h])
        have hlt : n < s.nextId := by
          have hf := hfresh
          rw [hi] at hf
          simpa [handleFresh] using hf
        simp [List.mem_cons, Nat.ne_of_lt hlt, not_mem_eraseHandle_self hn]
    · intro h now2 hi
      have hh : h ≠ 0 := fun hz => h0 (by rw [hi, hz])
      have hlt : h < s.nextId := by
        have hf := hfresh
        rw [hi] at hf
        simpa [handleFresh] using hf
      apply step_tick_not_scheduled
      rw [hPsch, hi]
      simp [List.mem_cons, Nat.ne_of_lt hlt, not_mem_eraseHandle_self hh]
    · intro _
      refine ⟨hPcnt, ?_⟩
      unfold countdownRunning isScheduled
      rw [hPcnt, hPsch]
      simp [List.mem_cons]
    · intro hT
      exact absurd hT hcdT

theorem claim3_witness :
    truthy (some (61000 : Int)) = true
    ∧ c3WitState.endTimestamp ≠ some 61000
    ∧ c3WitState.interval ≠ some 0
    ∧ handleFresh c3WitState.interval c3WitState.nextId = true
    ∧ elapsedRunning
        (setEndTimestamp formatDuration (some 61000) 2000 c3WitState).1 = false :=
  ⟨by decide, by decide, by decide, by decide,
   (claim3_deadline_change formatDuration c3WitState (some 61000) 2000
     (by decide) (by decide) (by decide) (by decide)).1⟩

/-- Claim C7 (amended): a countdown tick dispatches the warning notification
(period `"30"`, periodType `"seconds"`) — exactly one copy of it — and
switches the display style to the alert style if and only if the displayed
value after that tick's update step equals the canonical 30-second string
`"00:30"`.  When updates proceed normally that happens at most once per
lifecycle, but the displayed value may be stale (skipped update), so the
warning can also fire on a stale `"00:30"` and can repeat across ticks; zero
warnings fire only if `"00:30"` is never displayed at a countdown tick. -/
theorem claim7_warning (fmt : Int → String) (now : Int) (s : EngineState) :
    (Effect.notify "30" "seconds" ∈ (countdownTickBody fmt now s).2
      ↔ (setStateFromUTC fmt (some now) s.endTimestamp s).1.timerValue = "00:30")
    ∧ ((countdownTickBody fmt now s).2.count (Effect.notify "30" "seconds")
        = if (setStateFromUTC fmt (some now) s.endTimestamp s).1.timerValue = "00:30"
          then 1 else 0)
    ∧ ((setStateFromUTC fmt (some now) s.endTimestamp s).1.timerValue = "00:30" →
        (countdownTickBody fmt now s).1.styleRed = true
        ∧ Effect.styleAlert ∈ (countdownTickBody fmt now s).2) := by
  rcases setStateFromUTC_effects fmt (some now) s.endTimestamp s with he | he <;>
    by_cases h30 :
      (setStateFromUTC fmt (some now) s.endTimestamp s).1.timerValue = "00:30"
  · have h01 : ¬ (setStateFromUTC fmt (some now) s.endTimestamp s).1.timerValue
        = "00:01" := by
      rw [h30]; decide
    simp [countdownTickBody, he, h30, h01]
  · by_cases h01 :
      (setStateFromUTC fmt (some now) s.endTimestamp s).1.timerValue = "00:01" <;>
      simp [countdownTickBody, he, h30, h01, stopCountdownTimer]
  · have h01 : ¬ (setStateFromUTC fmt (some now) s.endTimestamp s).1.timerValue
        = "00:01" := by
      rw [h30]; decide
    simp [countdownTickBody, he, h30, h01]
  · by_cases h01 :
      (setStateFromUTC fmt (some now) s.endTimestamp s).1.timerValue = "00:01" <;>
      simp [countdownTickBody, he, h30, h01, stopCountdownTimer]

theorem claim7_witness :
    (setStateFromUTC formatDuration (some 30100) c7WitState.endTimestamp
        c7WitState).1.timerValue = "00:30"
    ∧ Effect.notify "30" "seconds"
        ∈ (countdownTickBody formatDuration 30100 c7WitState).2
    ∧ (countdownTickBody formatDuration 30100 c7WitState).1.styleRed = true :=
  ⟨by decide,
   (claim7_warning formatDuration 30100 c7WitState).1.mpr (by decide),
   ((claim7_warning formatDuration 30100 c7WitState).2.2 (by decide)).1⟩

/-- Claim C6 (amended): a countdown tick dispatches terminate — exactly one
copy of it — if and only if the displayed value after that tick's update
step equals the canonical 1-second string `"00:01"` (the displayed value is
the freshly formatted remaining time when the tick's update succeeded, but
may be a stale earlier value when the update was skipped).  When it fires,
the published duration is reset to `fmt 0` (the reset publish is the last
effect), the countdown loop is descheduled, and subsequent ticks of the
countdown handle are complete no-ops, so the effect cannot repeat within
the lifecycle. -/
theorem claim6_terminate (fmt : Int → String) (s : EngineState) (now : Int)
    (h : Nat) (hh : s.countdownInterval = some h) (h0 : h ≠ 0) :
    (Effect.terminate ∈ (countdownTickBody fmt now s).2
      ↔ (setStateFromUTC fmt (some now) s.endTimestamp s).1.timerValue = "00:01")
    ∧ ((countdownTickBody fmt now s).2.count Effect.terminate
        = if (setStateFromUTC fmt (some now) s.endTimestamp s).1.timerValue = "00:01"
          then 1 else 0)
    ∧ ((setStateFromUTC fmt (some now) s.endTimestamp s).1.timerValue = "00:01" →
        (countdownTickBody fmt now s).1.timerValue = fmt 0
        ∧ (countdownTickBody fmt now s).2.getLast? = some (Effect.publish (fmt 0))
        ∧ countdownRunning (countdownTickBody fmt now s).1 = false
        ∧ ∀ now2, step fmt (countdownTickBody fmt now s).1 (Event.tick h now2)
            = ((countdownTickBody fmt now s).1, [])) := by
  have hcnt : (setStateFromUTC fmt (some now) s.endTimestamp s).1.countdownInterval
      = some h := by
    rw [(setStateFromUTC_preserves fmt (some now) s.endTimestamp s).2.2.2.2.1, hh]
  by_cases h01 :
    (setStateFromUTC fmt (some now) s.endTimestamp s).1.timerValue = "00:01"
  · have h30 : ¬ (setStateFromUTC fmt (some now) s.endTimestamp s).1.timerValue
        = "00:30" := by
      rw [h01]; decide
    have hbody : countdownTickBody fmt now s
        = ({ (setStateFromUTC fmt (some now) s.endTimestamp s).1 with
              scheduled := eraseHandle (some h)
                (setStateFromUTC fmt (some now) s.endTimestamp s).1.scheduled,
              timerValue := fmt 0 },
           (setStateFromUTC fmt (some now) s.endTimestamp s).2
             ++ [] ++ [Effect.terminate, Effect.publish (fmt 0)]) := by
      simp only [countdownTickBody, h30, if_false, if_true, ite_false, ite_true,
        stopCountdownTimer, hcnt]
      rw [if_pos h01]
    rcases setStateFromUTC_effects fmt (some now) s.endTimestamp s with he | he
    · refine ⟨?_, ?_, fun _ => ⟨?_, ?_, ?_, ?_⟩⟩
      · rw [hbody, he]; simp [h01]
      · rw [hbody, he]; simp [h01]
      · rw [hbody]
      · rw [hbody, he]; simp
      · rw [hbody]
        unfold countdownRunning isScheduled
        rw [show ({ (setStateFromUTC fmt (some now) s.endTimestamp s).1 with
              scheduled := eraseHandle (some h)
                (setStateFromUTC fmt (some now) s.endTimestamp s).1.scheduled,
              timerValue := fmt 0 } : EngineState).countdownInterval = some h from hcnt]
        simp [not_mem_eraseHandle_self h0]
      · intro now2
        rw [hbody]
        apply step_tick_not_scheduled
        exact not_mem_eraseHandle_self h0 _
    · refine ⟨?_, ?_, fun _ => ⟨?_, ?_, ?_, ?_⟩⟩
      · rw [hbody, he]; simp [h01]
      · rw [hbody, he]; simp [h01]
      · rw [hbody]
      · rw [hbody, he]; simp
      · rw [hbody]
        unfold countdownRunning isScheduled
        rw [show ({ (setStateFromUTC fmt (some now) s.endTimestamp s).1 with
              scheduled := eraseHandle (some h)
                (setStateFromUTC fmt (some now) s.endTimestamp s).1.scheduled,
              timerValue := fmt 0 } : EngineState).countdownInterval = some h from hcnt]
        simp [not_mem_eraseHandle_self h0]
      · intro now2
        rw [hbody]
        apply step_tick_not_scheduled
        exact not_mem_eraseHandle_self h0 _
  · rcases setStateFromUTC_effects fmt (some now) s.endTimestamp s with he | he <;>
      by_cases h30 :
        (setStateFromUTC fmt (some now) s.endTimestamp s).1.timerValue = "00:30" <;>
      refine ⟨?_, ?_, fun hx => absurd hx h01⟩ <;>
      simp [countdownTickBody, he, h30, h01]

theorem claim6_witness :
    c6WitState.countdownInterval = some 2
    ∧ (2 : Nat) ≠ 0
    ∧ (setStateFromUTC formatDuration (some 60000) c6WitState.endTimestamp
        c6WitState).1.timerValue = "00:01"
    ∧ Effect.terminate ∈ (countdownTickBody formatDuration 60000 c6WitState).2
    ∧ countdownRunning (countdownTickBody formatDuration 60000 c6WitState).1
        = false :=
  ⟨by decide, by decide, by decide,
   (claim6_terminate formatDuration c6WitState 60000 2 (by decide) (by decide)).1.mpr
     (by decide),
   ((claim6_terminate formatDuration c6WitState 60000 2 (by decide)
     (by decide)).2.2 (by decide)).2.2.1⟩

/-- The countdown tick callback never touches the handle fields, the
timestamps, or the allocator counter. -/
theorem countdownTickBody_preserves (fmt : Int → String) (now : Int)
    (s : EngineState) :
    (countdownTickBody fmt now s).1.interval = s.interval
    ∧ (countdownTickBody fmt now s).1.countdownInterval = s.countdownInterval
    ∧ (countdownTickBody fmt now s).1.nextId = s.nextId
    ∧ (countdownTickBody fmt now s).1.startTimestamp = s.startTimestamp
    ∧ (countdownTickBody fmt now s).1.endTimestamp = s.endTimestamp := by
  obtain ⟨hsty, hst, hend, hint, hcnt, hsch, hnid⟩ :=
    setStateFromUTC_preserves fmt (some now) s.endTimestamp s
  simp only [countdownTickBody, stopCountdownTimer]
  split <;> split <;> simp_all

/-- Claim C10: each mode's tick loop can be scheduled at most once in an
engine instance's lifetime.  Once a handle is stored: the corresponding
start operation is a permanent no-op, no engine operation ever changes
either stored handle (no stop clears it), and a deadline change allocates
no new interval id and schedules nothing new — so after a countdown has
terminated, a later deadline change never schedules a new countdown loop. -/
theorem claim10_single_schedule (fmt : Int → String) (now : Int)
    (newEnd : Option Int) (s : EngineState) (e : Event)
    (hI : truthyN s.interval = true)
    (hC : truthyN s.countdownInterval = true) :
    startTimer fmt now s = (s, [])
    ∧ startCountdown fmt now s = (s, [])
    ∧ (step fmt s e).1.interval = s.interval
    ∧ (step fmt s e).1.countdownInterval = s.countdownInterval
    ∧ (setEndTimestamp fmt newEnd now s).1.nextId = s.nextId
    ∧ ∀ x, x ∈ (setEndTimestamp fmt newEnd now s).1.scheduled → x ∈ s.scheduled := by
  have hsetEnd : ∀ nw : Int,
      (setEndTimestamp fmt newEnd nw s).1.interval = s.interval
      ∧ (setEndTimestamp fmt newEnd nw s).1.countdownInterval = s.countdownInterval
      ∧ (setEndTimestamp fmt newEnd nw s).1.nextId = s.nextId
      ∧ ∀ x, x ∈ (setEndTimestamp fmt newEnd nw s).1.scheduled →
          x ∈ s.scheduled := by
    intro nw
    simp only [setEndTimestamp]
    split
    · rw [startCountdown_noop fmt nw (stopTimer { s with endTimestamp := newEnd }) hC]
      exact ⟨rfl, rfl, rfl, fun x hx => mem_eraseHandle _ _ hx⟩
    · exact ⟨rfl, rfl, rfl, fun x hx => hx⟩
  refine ⟨?_, startCountdown_noop fmt now s hC, ?_, ?_,
    (hsetEnd now).2.2.1, (hsetEnd now).2.2.2⟩
  · rw [startTimer, if_pos hI]
  · cases e with
    | mount nw => rw [step, startTimer, if_pos hI]
    | setEnd ne nw =>
        show (setEndTimestamp fmt ne nw s).1.interval = s.interval
        simp only [setEndTimestamp]
        split
        · rw [startCountdown_noop fmt nw (stopTimer { s with endTimestamp := ne }) hC]
          rfl
        · rfl
    | tick hId nw =>
        simp only [step]
        split
        · split
          · exact (setStateFromUTC_preserves fmt s.startTimestamp (some nw) s).2.2.2.1
          · split
            · exact (countdownTickBody_preserves fmt nw s).1
            · rfl
        · rfl
    | unmount => rfl
  · cases e with
    | mount nw => rw [step, startTimer, if_pos hI]
    | setEnd ne nw =>
        show (setEndTimestamp fmt ne nw s).1.countdownInterval = s.countdownInterval
        simp only [setEndTimestamp]
        split
        · rw [startCountdown_noop fmt nw (stopTimer { s with endTimestamp := ne }) hC]
          rfl
        · rfl
    | tick hId nw =>
        simp only [step]
        split
        · split
          · exact (setStateFromUTC_preserves fmt s.startTimestamp (some nw) s).2.2.2.2.1
          · split
            · exact (countdownTickBody_preserves fmt nw s).2.1
            · rfl
        · rfl
    | unmount => rfl

theorem claim10_witness :
    truthyN c10WitState.interval = true
    ∧ truthyN c10WitState.countdownInterval = true
    ∧ startTimer formatDuration 62000 c10WitState = (c10WitState, [])
    ∧ startCountdown formatDuration 62000 c10WitState = (c10WitState, [])
    ∧ (setEndTimestamp formatDuration (some 99000) 62000 c10WitState).1.nextId
        = c10WitState.nextId :=
  ⟨by decide, by decide,
   (claim10_single_schedule formatDuration 62000 (some 99000) c10WitState
     Event.unmount (by decide) (by decide)).1,
   (claim10_single_schedule formatDuration 62000 (some 99000) c10WitState
     Event.unmount (by decide) (by decide)).2.1,
   (claim10_single_schedule formatDuration 62000 (some 99000) c10WitState
     Event.unmount (by decide) (by decide)).2.2.2.2.1⟩

end ConfTimer
